import Mathlib

/-!
Shallow embedding of `src/js/app.js` (a lane-crossing arcade game) and proofs
about its update/collision/spawn core.

Numbers: JS numbers are modelled by `ℚ` (all quantities the game computes with
are produced by field arithmetic on literals, so rationals are exact here).
Positions and velocities are pairs of rationals.  `Math.random()` draws are
passed in explicitly as rational parameters, with hypotheses `0 ≤ r < 1`
where a property needs them.
-/

namespace Arcade

/-! ### Level (`class Level`, app.js lines 1–39) -/

/-- `this.tileWidth = 101` -/
def tileWidth : ℚ := 101

/-- `this.tileHeight = 83` -/
def tileHeight : ℚ := 83

/-- `this.widthTiles = 5` -/
def widthTiles : ℕ := 5

/-- `this.heightTiles = 6` -/
def heightTiles : ℕ := 6

/-- `widthPixels()` returns `tileWidth * widthTiles`. -/
def widthPixels : ℚ := tileWidth * widthTiles

/-- `heightPixels()` returns `tileHeight * heightTiles`. -/
def heightPixels : ℚ := tileHeight * heightTiles

/-- The three tile sprites pushed by `generateTiles`
(`water-block.png`, `stone-block.png`, `grass-block.png`). -/
inductive Tile where
  | water
  | stone
  | grass
deriving DecidableEq, Repr

/-- `generateTiles` pushes, in order: `widthTiles` water tiles (one row),
then `widthTiles` stone tiles for each of 3 rows, then `widthTiles` grass
tiles for each of 2 rows, giving a row-major flat array of 30 tiles. -/
def generateTiles : List Tile :=
  List.replicate widthTiles Tile.water
    ++ List.replicate (3 * widthTiles) Tile.stone
    ++ List.replicate (2 * widthTiles) Tile.grass

/-- `getTile(row, col)` returns `this.tiles[row * this.widthTiles + col]`.
JS array indexing is unchecked: an index outside the array (negative, or at
least the length) yields `undefined`, modelled as `none`. -/
def getTile (row col : ℤ) : Option Tile :=
  let i : ℤ := row * (widthTiles : ℤ) + col
  if 0 ≤ i then generateTiles.get? i.toNat else none

/-! ### Positions and entities (`class Entity`, `Enemy`, `Player`) -/

/-- A JS `{x: …, y: …}` pair (position, velocity or displacement). -/
structure Vec where
  x : ℚ
  y : ℚ
deriving DecidableEq, Repr

/-- `this.start = {x: this.tileWidth * 2, y: this.tileHeight * 5}` -/
def levelStart : Vec := ⟨tileWidth * 2, tileHeight * 5⟩

/-- `Entity.move(velocity, dt)`: `pos.x += velocity.x * dt; pos.y += velocity.y * dt`. -/
def move (pos velocity : Vec) (dt : ℚ) : Vec :=
  ⟨pos.x + velocity.x * dt, pos.y + velocity.y * dt⟩

/-- `Entity.shiftPosition(displacement)`: `pos.x += displacement.x; pos.y += displacement.y`. -/
def shiftPosition (pos displacement : Vec) : Vec :=
  ⟨pos.x + displacement.x, pos.y + displacement.y⟩

/-- An `Enemy` instance: the constructor sets `this.pos = position` and
`this.movement = movement` (the sprite string is irrelevant to the dynamics). -/
structure Enemy where
  pos : Vec
  movement : Vec
deriving DecidableEq, Repr

/-- The argument of `Player.update`.  The source compares the input against the
four string literals in order; any other value falls through all branches,
modelled by `other`. -/
inductive GameInput where
  | left
  | right
  | up
  | down
  | other
deriving DecidableEq, Repr

/-- The clamp at the end of `Player.update` (app.js lines 109–112):
`x = max(0, x); y = max(0, y); x = min(x, widthPixels - tileWidth);
y = min(y, heightPixels - tileHeight)`. -/
def clampPos (p : Vec) : Vec :=
  ⟨min (max 0 p.x) (widthPixels - tileWidth),
   min (max 0 p.y) (heightPixels - tileHeight)⟩

/-- `Player.update(input)` (app.js lines 95–113): shift one tile in the
recognised direction (nothing on an unrecognised input), then clamp
unconditionally. -/
def playerUpdate (pos : Vec) (input : GameInput) : Vec :=
  let p :=
    match input with
    | .left => shiftPosition pos ⟨-tileWidth, 0⟩
    | .right => shiftPosition pos ⟨tileWidth, 0⟩
    | .up => shiftPosition pos ⟨0, -tileHeight⟩
    | .down => shiftPosition pos ⟨0, tileHeight⟩
    | .other => pos
  clampPos p

/-! ### Enemy spawning (`Entities.checkEnemyCreation`, app.js lines 132–146)

The three `Math.random()` calls of one frame are passed in as explicit draws
(`trial`, `rowDraw`, `sideDraw`); JS evaluates the later two lazily, which
does not matter for the resulting enemy list. -/

/-- `const ENEMY_CREATION_CHANCE = 0.5` -/
def ENEMY_CREATION_CHANCE : ℚ := 1 / 2

/-- The `Math.random()` draws one frame of `Entities.update` can consume. -/
structure Draws where
  trial : ℚ
  rowDraw : ℚ
  sideDraw : ℚ
deriving DecidableEq, Repr

/-- `Entities.checkEnemyCreation(dt)`: when `trial < dt * ENEMY_CREATION_CHANCE`,
push one new enemy whose row is `Math.floor(rowDraw * 3 + 1)` and whose side is
decided by `sideDraw < 0.5` (left edge moving right at +100, or right edge
moving left at −100); otherwise leave the list unchanged. -/
def checkEnemyCreation (enemies : List Enemy) (dt : ℚ) (d : Draws) : List Enemy :=
  if d.trial < dt * ENEMY_CREATION_CHANCE then
    let row : ℤ := ⌊d.rowDraw * 3 + 1⌋
    if d.sideDraw < 1 / 2 then
      enemies ++ [⟨⟨-tileWidth, (row : ℚ) * tileHeight⟩, ⟨100, 0⟩⟩]
    else
      enemies ++ [⟨⟨widthPixels + tileWidth, (row : ℚ) * tileHeight⟩, ⟨-100, 0⟩⟩]
  else enemies

/-! ### Enemy removal (`Entities.checkEnemyRemoval`, app.js lines 148–166) -/

/-- The source reads `enemyToCheck.x`.  `Enemy` instances only ever set the
properties `pos`, `movement` and `sprite` (never a top-level `x`), so this
property access evaluates to `undefined`, modelled as `none`. -/
def enemyDotX (_e : Enemy) : Option ℚ := none

/-- JS `a <= b` where `a` may be `undefined`: `undefined` converts to `NaN`
and every comparison with `NaN` is false. -/
def jsLe (a : Option ℚ) (b : ℚ) : Bool :=
  match a with
  | some q => decide (q ≤ b)
  | none => false

/-- JS `a >= b` where `a` may be `undefined` (false on `undefined`). -/
def jsGe (a : Option ℚ) (b : ℚ) : Bool :=
  match a with
  | some q => decide (b ≤ q)
  | none => false

/-- The body of the inner `for` loop of `checkEnemyRemoval`: `removeEnemy` is
set when `enemyToCheck.x <= -tileWidth && movement.x < 0` or
`enemyToCheck.x >= widthPixels && movement.x > 0`. -/
def removeEnemyCheck (e : Enemy) : Bool :=
  (jsLe (enemyDotX e) (-tileWidth) && decide (e.movement.x < 0))
    || (jsGe (enemyDotX e) widthPixels && decide (e.movement.x > 0))

/-- `Entities.checkEnemyRemoval()`: the `do … while` loop repeatedly finds the
first enemy satisfying `removeEnemyCheck`, splices it out, and stops once a
full scan finds none. -/
def removalSweep (es : List Enemy) : List Enemy :=
  match h : es.findIdx? removeEnemyCheck with
  | some i => removalSweep (es.eraseIdx i)
  | none => es
termination_by es.length
decreasing_by
  have hi : i < es.length := (List.findIdx?_eq_some_iff_findIdx_eq.mp h).1
  have := List.length_eraseIdx_of_lt hi
  omega

/-! ### Collision test (`Entities.checkCollisions`, app.js lines 170–179) -/

/-- The collision threshold `this.level.tileWidth * 0.6`. -/
def collisionThreshold : ℚ := tileWidth * (6 / 10)

/-- One iteration of the loop in `checkCollisions`:
`Math.hypot(px - ex, py - ey) < threshold`.  Since both sides are nonnegative
(`hypot` is a nonnegative square root and the threshold is positive), the
comparison is encoded by comparing squares, which keeps it inside `ℚ`;
`collides_iff_sqrt_lt` below proves this equal to the source's
strict comparison of the Euclidean distance. -/
def collides (player : Vec) (e : Enemy) : Bool :=
  decide ((player.x - e.pos.x) ^ 2 + (player.y - e.pos.y) ^ 2 < collisionThreshold ^ 2)

/-- `Entities.checkCollisions()`: return true on the first enemy within the
threshold distance of the player, false if none is. -/
def checkCollisions (player : Vec) (enemies : List Enemy) : Bool :=
  enemies.any (collides player)

/-! ### Entity collection (`class Entities`) -/

/-- The mutable state of an `Entities` instance: the player position and the
ordered enemy list (the level reference is the fixed global level). -/
structure EntitiesState where
  enemies : List Enemy
  player : Vec
deriving DecidableEq, Repr

/-- `Entities.update(dt)` (app.js lines 124–130): spawn check, removal sweep,
advance every enemy by its own velocity, then return
`!this.checkCollisions()` — a single boolean. -/
def entitiesUpdate (s : EntitiesState) (dt : ℚ) (d : Draws) : EntitiesState × Bool :=
  let es := checkEnemyCreation s.enemies dt d
  let es := removalSweep es
  let es := es.map fun e => { e with pos := move e.pos e.movement dt }
  let collisionOccurred := checkCollisions s.player es
  ({ s with enemies := es }, !collisionOccurred)

/-! ### Engine (`class Engine`, app.js lines 209–489)

Only the state the update cycle reads or writes is modelled: the game state,
the score, `timeSinceReset`, the input handler's `inputsEnabled` flag, and the
entity collection.  Rendering, canvas and mouse handling are peripheral. -/

/-- `this.states = Object.freeze({initialising: 0, running: 1, levelWin: 2, gameOver: 3})` -/
inductive GameState where
  | initialising
  | running
  | levelWin
  | gameOver
deriving DecidableEq, Repr

/-- The engine state touched by the per-frame update. -/
structure EngineState where
  state : GameState
  score : ℕ
  timeSinceReset : ℚ
  inputsEnabled : Bool
  entities : EntitiesState
deriving DecidableEq, Repr

/-- The three property names `Engine.update` reads off the value returned by
`Entities.update`. -/
inductive MsgField where
  | hitEnemy
  | pickedUpGem
  | levelWon
deriving DecidableEq, Repr

/-- The JS value `Engine.update` receives from `this.entities.update(dt)`:
a boolean primitive (`Entities.update` returns `!collisionOccurred`). -/
inductive JsValue where
  | jsBool (b : Bool)
  | jsUndefined
deriving DecidableEq, Repr

/-- JS property access `entityMessages.field`: a boolean primitive has none of
the properties `hitEnemy`, `pickedUpGem` or `levelWon`, so the access yields
`undefined`. -/
def JsValue.getField : JsValue → MsgField → JsValue
  | .jsBool _, _ => .jsUndefined
  | .jsUndefined, _ => .jsUndefined

/-- JS truthiness as used by `if (…)`: `undefined` is falsy. -/
def JsValue.truthy : JsValue → Bool
  | .jsBool b => b
  | .jsUndefined => false

/-- `Engine.playerInputAllowed()` (app.js lines 344–346): `timeSinceReset > 2`. -/
def playerInputAllowed (e : EngineState) : Bool :=
  decide (2 < e.timeSinceReset)

/-- `Engine.update(dt)` (app.js lines 358–372): bump `timeSinceReset`, bail out
unless running, re-enable inputs after the grace period, run the entity update,
then branch on `entityMessages.hitEnemy` / `.levelWon` / `.pickedUpGem` —
property reads on the boolean that `Entities.update` actually returned. -/
def engineUpdate (e0 : EngineState) (dt : ℚ) (d : Draws) : EngineState :=
  let e := { e0 with timeSinceReset := e0.timeSinceReset + dt }
  if e.state ≠ GameState.running then e
  else
    let e := if playerInputAllowed e then { e with inputsEnabled := true } else e
    let r := entitiesUpdate e.entities dt d
    let entityMessages : JsValue := .jsBool r.2
    let e := { e with entities := r.1 }
    if (entityMessages.getField .hitEnemy).truthy then
      { e with inputsEnabled := false, state := .gameOver }
    else if (entityMessages.getField .levelWon).truthy then
      { e with inputsEnabled := false, state := .levelWin }
    else if (entityMessages.getField .pickedUpGem).truthy then
      { e with score := e.score + 1 }
    else e

/-- `InputHandler.allowedKeys`: `{37: 'left', 38: 'up', 39: 'right', 40: 'down'}`;
looking up any other key code yields `undefined` (`none`). -/
def allowedKeys (keyCode : ℕ) : Option GameInput :=
  if keyCode = 37 then some .left
  else if keyCode = 38 then some .up
  else if keyCode = 39 then some .right
  else if keyCode = 40 then some .down
  else none

/-- The `keyup` listener installed by `InputHandler.initializeEventListeners`
(app.js lines 194–200): look the key code up in `allowedKeys` and, whenever it
maps to a direction, call `player.update(keyValue)` — with no check of
`inputsEnabled` or of the grace period. -/
def handleKeyup (e : EngineState) (keyCode : ℕ) : EngineState :=
  match allowedKeys keyCode with
  | some keyValue =>
      { e with entities :=
          { e.entities with player := playerUpdate e.entities.player keyValue } }
  | none => e

/-- `Engine.updateTimer()` (app.js lines 335–340): `(now - lastTime) / 1000`,
in seconds. -/
def updateTimer (now lastTime : ℚ) : ℚ :=
  (now - lastTime) / 1000

/-- The `dt` computed by `Engine.runLoopIteration` (app.js line 319):
`Math.min(0.1, this.updateTimer())`. -/
def loopDt (raw : ℚ) : ℚ :=
  min (1 / 10) raw

/-! ### Helper lemmas -/

/-- Because the source reads the nonexistent property `enemyToCheck.x`
(instead of `enemyToCheck.pos.x`), the removal predicate is false on every
enemy. -/
theorem removeEnemyCheck_false (e : Enemy) : removeEnemyCheck e = false := rfl

/-- Consequently the removal sweep never removes anything. -/
theorem removalSweep_eq_self (es : List Enemy) : removalSweep es = es := by
  have hnone : es.findIdx? removeEnemyCheck = none :=
    List.findIdx?_eq_none_iff.mpr fun x _ => rfl
  rw [removalSweep]
  split
  · rename_i i hi
    rw [hnone] at hi
    cases hi
  · rfl

/-- The rectangle the player clamp targets:
`[0, widthPixels − tileWidth] × [0, heightPixels − tileHeight]`. -/
def inBounds (p : Vec) : Prop :=
  0 ≤ p.x ∧ p.x ≤ widthPixels - tileWidth ∧ 0 ≤ p.y ∧ p.y ≤ heightPixels - tileHeight

theorem clampPos_inBounds (p : Vec) : inBounds (clampPos p) := by
  refine ⟨le_min (le_max_left 0 p.x) ?_, min_le_right _ _,
    le_min (le_max_left 0 p.y) ?_, min_le_right _ _⟩ <;>
    norm_num [widthPixels, heightPixels, tileWidth, tileHeight, widthTiles, heightTiles]

theorem playerUpdate_inBounds (pos : Vec) (input : GameInput) :
    inBounds (playerUpdate pos input) := by
  cases input <;> exact clampPos_inBounds _

theorem levelStart_inBounds : inBounds levelStart := by
  refine ⟨?_, ?_, ?_, ?_⟩ <;>
    norm_num [inBounds, levelStart, widthPixels, heightPixels, tileWidth, tileHeight,
      widthTiles, heightTiles]

theorem foldl_playerUpdate_inBounds (inputs : List GameInput) (p : Vec) (hp : inBounds p) :
    inBounds (inputs.foldl playerUpdate p) := by
  induction inputs generalizing p with
  | nil => exact hp
  | cons i is ih => exact ih _ (playerUpdate_inBounds p i)

/-- One step of `collides` agrees with the source's strict comparison of the
Euclidean distance (`Math.hypot`) against `tileWidth * 0.6`. -/
theorem collides_iff_sqrt_lt (p : Vec) (e : Enemy) :
    collides p e = true ↔
      Real.sqrt (((p.x - e.pos.x : ℚ) : ℝ) ^ 2 + ((p.y - e.pos.y : ℚ) : ℝ) ^ 2)
        < ((tileWidth : ℚ) : ℝ) * (6 / 10) := by
  have ht : (0:ℝ) < ((tileWidth : ℚ) : ℝ) * (6 / 10) := by
    norm_num [tileWidth]
  rw [collides, decide_eq_true_eq, Real.sqrt_lt' ht, collisionThreshold]
  rw [show ((6:ℝ) / 10) = ((6 / 10 : ℚ) : ℝ) by norm_num]
  norm_cast

theorem move_zero (p v : Vec) : move p v 0 = p := by
  cases p
  simp [move]

theorem map_move_zero (es : List Enemy) :
    (es.map fun e => { e with pos := move e.pos e.movement 0 }) = es := by
  induction es with
  | nil => rfl
  | cons a as ih =>
    cases a
    simp [move_zero, ih]

/-- With `dt = 0` the whole entity cycle is the identity on the state (the
spawn trial `trial < 0 * 0.5` cannot fire for a nonnegative draw, the sweep
removes nothing, and motion by `velocity * 0` is null); the return value is
still the negated collision test. -/
theorem entitiesUpdate_zero (s : EntitiesState) (d : Draws) (htrial : 0 ≤ d.trial) :
    entitiesUpdate s 0 d = (s, !checkCollisions s.player s.enemies) := by
  have hspawn : checkEnemyCreation s.enemies 0 d = s.enemies := by
    rw [checkEnemyCreation, if_neg]
    rw [zero_mul]
    exact not_lt.mpr htrial
  cases s
  rw [entitiesUpdate]
  simp only [hspawn, removalSweep_eq_self, map_move_zero]

/-! ### The claims -/

/-- C1: the claim says the entity-update cycle produces an outcome message
with boolean fields `hitEnemy` / `pickedUpGem` / `levelWon` and that the state
machine reacts to them (GameOver on `hitEnemy`, etc.).  In the source,
`Entities.update` returns the single boolean `!collisionOccurred`, and the
property reads `Engine.update` performs on it yield `undefined` (falsy): at a
running configuration with an enemy exactly on the player, the collision test
fires and the update returns `false`, yet the state stays `running` and the
score is untouched — the GameOver transition never happens. -/
theorem c1_collision_without_gameover :
    checkCollisions
      (⟨[⟨⟨202, 415⟩, ⟨-100, 0⟩⟩], ⟨202, 415⟩⟩ : EntitiesState).player
      [⟨⟨202, 415⟩, ⟨-100, 0⟩⟩] = true ∧
    (entitiesUpdate ⟨[⟨⟨202, 415⟩, ⟨-100, 0⟩⟩], ⟨202, 415⟩⟩ 0 ⟨1, 0, 0⟩).2 = false ∧
    (engineUpdate ⟨.running, 0, 0, false, ⟨[⟨⟨202, 415⟩, ⟨-100, 0⟩⟩], ⟨202, 415⟩⟩⟩ 0 ⟨1, 0, 0⟩).state
      = GameState.running ∧
    (engineUpdate ⟨.running, 0, 0, false, ⟨[⟨⟨202, 415⟩, ⟨-100, 0⟩⟩], ⟨202, 415⟩⟩⟩ 0 ⟨1, 0, 0⟩).score
      = 0 := by
  have hcol : checkCollisions (⟨202, 415⟩ : Vec) [⟨⟨202, 415⟩, ⟨-100, 0⟩⟩] = true := by
    simp [checkCollisions, collides, collisionThreshold, tileWidth]
  have hupd := entitiesUpdate_zero ⟨[⟨⟨202, 415⟩, ⟨-100, 0⟩⟩], ⟨202, 415⟩⟩ ⟨1, 0, 0⟩ (by norm_num)
  refine ⟨hcol, ?_, ?_, ?_⟩
  · rw [hupd, hcol]
    rfl
  · rw [engineUpdate]
    simp only [hupd]
    split_ifs <;> simp_all [JsValue.getField, JsValue.truthy, playerInputAllowed]
  · rw [engineUpdate]
    simp only [hupd]
    split_ifs <;> simp_all [JsValue.getField, JsValue.truthy, playerInputAllowed]

/-- C2: the claim says the removal sweep purges every enemy that is fully
off-screen in its own direction of travel.  Because `checkEnemyRemoval` reads
the never-assigned property `enemyToCheck.x` instead of `enemyToCheck.pos.x`,
both comparisons are false and the sweep removes nothing: the enemy at
`x = −202` (≤ −tileWidth) moving left survives the sweep. -/
theorem c2_offscreen_enemy_survives :
    (⟨⟨-202, 83⟩, ⟨-100, 0⟩⟩ : Enemy).pos.x ≤ -tileWidth ∧
    (⟨⟨-202, 83⟩, ⟨-100, 0⟩⟩ : Enemy).movement.x < 0 ∧
    removalSweep [⟨⟨-202, 83⟩, ⟨-100, 0⟩⟩] = [⟨⟨-202, 83⟩, ⟨-100, 0⟩⟩] := by
  refine ⟨?_, ?_, removalSweep_eq_self _⟩ <;> norm_num [tileWidth]

/-- C3: the claim says a directional input changes the player position only
when the 2-second grace period has elapsed and the end-state input-disable
flag is clear.  The `keyup` listener calls `player.update` unconditionally:
in a state with `timeSinceReset = 0` (grace period active, `playerInputAllowed`
false) and `inputsEnabled = false`, delivering key code 37 (left) still moves
the player. -/
theorem c3_input_moves_player_during_grace :
    playerInputAllowed ⟨.running, 0, 0, false, ⟨[], levelStart⟩⟩ = false ∧
    (⟨.running, 0, 0, false, ⟨[], levelStart⟩⟩ : EngineState).inputsEnabled = false ∧
    (handleKeyup ⟨.running, 0, 0, false, ⟨[], levelStart⟩⟩ 37).entities.player ≠
      (⟨.running, 0, 0, false, ⟨[], levelStart⟩⟩ : EngineState).entities.player := by
  refine ⟨?_, rfl, ?_⟩
  · rw [playerInputAllowed]
    norm_num
  · intro hcontra
    have hpl : playerUpdate levelStart GameInput.left = levelStart := hcontra
    have hx : min (max 0 (levelStart.x + -tileWidth)) (widthPixels - tileWidth)
        = levelStart.x := congrArg Vec.x hpl
    norm_num [levelStart, tileWidth, widthPixels, widthTiles, min_def, max_def] at hx

/-- C4: a recognised directional input shifts the position by exactly one tile
width/height and the clamp is then applied unconditionally; every update lands
in `[0, widthPixels − tileWidth] × [0, heightPixels − tileHeight]`, and so does
any sequence of inputs starting from the fixed start position. -/
theorem c4_player_clamp (inputs : List GameInput) :
    (∀ (pos : Vec) (input : GameInput), inBounds (playerUpdate pos input)) ∧
    inBounds (inputs.foldl playerUpdate levelStart) ∧
    ∀ pos : Vec,
      playerUpdate pos .left = clampPos (shiftPosition pos ⟨-tileWidth, 0⟩) ∧
      playerUpdate pos .right = clampPos (shiftPosition pos ⟨tileWidth, 0⟩) ∧
      playerUpdate pos .up = clampPos (shiftPosition pos ⟨0, -tileHeight⟩) ∧
      playerUpdate pos .down = clampPos (shiftPosition pos ⟨0, tileHeight⟩) :=
  ⟨playerUpdate_inBounds,
   foldl_playerUpdate_inBounds inputs levelStart levelStart_inBounds,
   fun _ => ⟨rfl, rfl, rfl, rfl⟩⟩

/-- C5: the collision check is true exactly when some enemy's Euclidean
distance from the player is strictly below `tileWidth * 0.6`; an enemy at the
player's exact position always collides, and an enemy at distance at least
`tileWidth` never does. -/
theorem c5_collision_euclidean (p : Vec) (es : List Enemy) :
    (checkCollisions p es = true ↔
      ∃ e ∈ es,
        Real.sqrt (((p.x - e.pos.x : ℚ) : ℝ) ^ 2 + ((p.y - e.pos.y : ℚ) : ℝ) ^ 2)
          < ((tileWidth : ℚ) : ℝ) * (6 / 10)) ∧
    (∀ e : Enemy, e.pos = p → checkCollisions p [e] = true) ∧
    (∀ e : Enemy,
      ((tileWidth : ℚ) : ℝ) ≤
        Real.sqrt (((p.x - e.pos.x : ℚ) : ℝ) ^ 2 + ((p.y - e.pos.y : ℚ) : ℝ) ^ 2) →
      checkCollisions p [e] = false) := by
  refine ⟨?_, ?_, ?_⟩
  · rw [checkCollisions, List.any_eq_true]
    exact exists_congr fun e => and_congr_right fun _ => collides_iff_sqrt_lt p e
  · intro e he
    have : collides p e = true := by
      rw [collides, decide_eq_true_eq, he]
      norm_num [collisionThreshold, tileWidth]
    simp [checkCollisions, this]
  · intro e hfar
    have hS : (0:ℝ) ≤ ((p.x - e.pos.x : ℚ) : ℝ) ^ 2 + ((p.y - e.pos.y : ℚ) : ℝ) ^ 2 := by
      positivity
    have htw : (0:ℝ) ≤ ((tileWidth : ℚ) : ℝ) := by norm_num [tileWidth]
    have h2 := (Real.le_sqrt htw hS).mp hfar
    have hcol : collides p e = false := by
      rw [collides, decide_eq_false_iff_not]
      intro hlt
      have hlt' : (((p.x - e.pos.x) ^ 2 + (p.y - e.pos.y) ^ 2 : ℚ) : ℝ)
          < ((collisionThreshold ^ 2 : ℚ) : ℝ) := by exact_mod_cast hlt
      have hlhs : (((p.x - e.pos.x) ^ 2 + (p.y - e.pos.y) ^ 2 : ℚ) : ℝ)
          = ((p.x - e.pos.x : ℚ) : ℝ) ^ 2 + ((p.y - e.pos.y : ℚ) : ℝ) ^ 2 := by push_cast; ring
      have hthr : ((collisionThreshold ^ 2 : ℚ) : ℝ) < ((tileWidth : ℚ) : ℝ) ^ 2 := by
        norm_num [collisionThreshold, tileWidth]
      rw [hlhs] at hlt'
      linarith
    simp [checkCollisions, hcol]

/-- Witness for C5: an enemy at exactly the player position collides. -/
theorem c5_witness :
    checkCollisions ⟨202, 415⟩ [⟨⟨202, 415⟩, ⟨-100, 0⟩⟩] = true :=
  (c5_collision_euclidean ⟨202, 415⟩ [⟨⟨202, 415⟩, ⟨-100, 0⟩⟩]).2.1 ⟨⟨202, 415⟩, ⟨-100, 0⟩⟩ rfl

/-- C6: the spawner creates at most one enemy per frame, exactly when the
trial draw is below `dt * 0.5`; the row is `⌊rowDraw·3 + 1⌋ ∈ {1,2,3}` with
each row's preimage an interval of length 1/3 of the draw space, and the side
draw below 1/2 gives the left-edge spawn moving right at +100 while the
other half gives the right-edge spawn moving left at −100. -/
theorem c6_spawner (es : List Enemy) (dt : ℚ) (d : Draws)
    (hrow0 : 0 ≤ d.rowDraw) (hrow1 : d.rowDraw < 1) :
    (¬ d.trial < dt * ENEMY_CREATION_CHANCE → checkEnemyCreation es dt d = es) ∧
    (d.trial < dt * ENEMY_CREATION_CHANCE →
      ∃ row : ℤ, (row = 1 ∨ row = 2 ∨ row = 3) ∧
        (row = 1 ↔ d.rowDraw < 1 / 3) ∧
        (row = 2 ↔ 1 / 3 ≤ d.rowDraw ∧ d.rowDraw < 2 / 3) ∧
        (row = 3 ↔ 2 / 3 ≤ d.rowDraw) ∧
        checkEnemyCreation es dt d =
          es ++ [if d.sideDraw < 1 / 2
            then ⟨⟨-tileWidth, (row : ℚ) * tileHeight⟩, ⟨100, 0⟩⟩
            else ⟨⟨widthPixels + tileWidth, (row : ℚ) * tileHeight⟩, ⟨-100, 0⟩⟩]) := by
  constructor
  · intro h
    rw [checkEnemyCreation, if_neg h]
  · intro h
    refine ⟨⌊d.rowDraw * 3 + 1⌋, ?_, ?_, ?_, ?_, ?_⟩
    · have hlo : (1:ℤ) ≤ ⌊d.rowDraw * 3 + 1⌋ := by
        rw [Int.le_floor]
        push_cast
        linarith
      have hhi : ⌊d.rowDraw * 3 + 1⌋ < 4 := by
        rw [Int.floor_lt]
        push_cast
        linarith
      omega
    · rw [Int.floor_eq_iff]
      push_cast
      constructor
      · rintro ⟨-, hu⟩; linarith
      · intro hu; constructor <;> linarith
    · rw [Int.floor_eq_iff]
      push_cast
      constructor
      · rintro ⟨hl, hu⟩
        constructor <;> linarith
      · rintro ⟨hl, hu⟩
        constructor <;> linarith
    · rw [Int.floor_eq_iff]
      push_cast
      constructor
      · rintro ⟨hl, -⟩; linarith
      · intro hl
        constructor <;> linarith
    · rw [checkEnemyCreation, if_pos h]
      split_ifs with hside <;> rfl

/-- Witness for C6: with draws `(0, 0, 0)` and `dt = 1` the spawner creates
exactly the row-1 left-edge enemy. -/
theorem c6_spawner_witness :
    checkEnemyCreation [] 1 ⟨0, 0, 0⟩ = [⟨⟨-tileWidth, (1 : ℚ) * tileHeight⟩, ⟨100, 0⟩⟩] := by
  obtain ⟨-, h⟩ := c6_spawner [] 1 ⟨0, 0, 0⟩ (by norm_num) (by norm_num)
  obtain ⟨row, -, h1, -, -, heq⟩ := h (by norm_num [ENEMY_CREATION_CHANCE])
  have hr : row = 1 := h1.mpr (by norm_num)
  subst hr
  rw [heq, if_pos (by norm_num)]
  rfl

/-- C7 counterexample: `(row, col) = (0, 7)` is outside
`[0, heightTiles) × [0, widthTiles)` yet `getTile` returns a stone tile (the
flat index aliases into row 1) instead of failing with a bounds error. -/
theorem c7_counterexample :
    ¬ (0 ≤ (0:ℤ) ∧ (0:ℤ) < (heightTiles:ℤ) ∧ 0 ≤ (7:ℤ) ∧ (7:ℤ) < (widthTiles:ℤ)) ∧
    getTile 0 7 = some Tile.stone := by decide

/-- C7 (amended): `getTile` is unchecked row-major indexing: it yields
`undefined` (`none`) exactly when the flat index `row·widthTiles + col` falls
outside `[0, 30)` — an out-of-range `(row, col)` whose flat index still lands
inside the array returns that aliased tile instead of failing — and every
in-range `(row, col)` returns water for row 0, stone for rows 1–3 and grass
for rows 4–5. -/
theorem c7_amended (row col : ℤ) :
    (getTile row col = none ↔
      row * (widthTiles:ℤ) + col < 0 ∨ 30 ≤ row * (widthTiles:ℤ) + col) ∧
    (0 ≤ row → row < (heightTiles:ℤ) → 0 ≤ col → col < (widthTiles:ℤ) →
      getTile row col =
        some (if row = 0 then Tile.water else if row ≤ 3 then Tile.stone else Tile.grass)) := by
  constructor
  · rw [getTile]
    have hlen : generateTiles.length = 30 := by decide
    simp only [widthTiles]
    split_ifs with h0
    · rw [List.get?_eq_none, hlen]
      omega
    · exact ⟨fun _ => by omega, fun _ => rfl⟩
  · intro h1 h2 h3 h4
    simp only [widthTiles, heightTiles] at *
    interval_cases row <;> interval_cases col <;> decide

/-- Witness for C7 (amended): the in-range corner `(0, 0)` is water. -/
theorem c7_amended_witness : getTile 0 0 = some Tile.water := by
  have h := (c7_amended 0 0).2 (by norm_num) (by norm_num [heightTiles]) (by norm_num)
    (by norm_num [widthTiles])
  simpa using h

/-- C8 counterexample: the loop driver only caps `dt` from above.  A frame
timer that goes backwards by one second (`now = 0`, `lastTime = 1000` ms)
produces `dt = min(0.1, −1) = −1 < 0`, outside the claimed `[0, 0.1]`. -/
theorem c8_counterexample : loopDt (updateTimer 0 1000) < 0 := by
  rw [loopDt, updateTimer]
  rw [min_def]
  norm_num

/-- C8 (amended): `dt = min(0.1, raw)` is always at most 0.1, and lies in
`[0, 0.1]` whenever the raw elapsed value is nonnegative; a negative raw
value passes through unchanged. -/
theorem c8_amended (raw : ℚ) :
    loopDt raw ≤ 1 / 10 ∧
    (0 ≤ raw → 0 ≤ loopDt raw ∧ loopDt raw ≤ 1 / 10) ∧
    (raw < 0 → loopDt raw = raw) :=
  ⟨min_le_left _ _,
   fun h => ⟨le_min (by norm_num) h, min_le_left _ _⟩,
   fun h => min_eq_right (le_of_lt (lt_trans h (by norm_num)))⟩

/-- Witness for C8 (amended): a 10 ms frame yields a dt inside `[0, 0.1]`. -/
theorem c8_amended_witness : 0 ≤ loopDt (1 / 100) ∧ loopDt (1 / 100) ≤ 1 / 10 :=
  (c8_amended (1 / 100)).2.1 (by norm_num)

/-- C9: updating any configuration with `dt = 0` (and a nonnegative spawn
draw, as `Math.random()` produces) changes no entity position, not the score
and not the game state. -/
theorem c9_dt_zero_noop (e : EngineState) (d : Draws) (htrial : 0 ≤ d.trial) :
    (engineUpdate e 0 d).state = e.state ∧
    (engineUpdate e 0 d).score = e.score ∧
    (engineUpdate e 0 d).entities.player = e.entities.player ∧
    (engineUpdate e 0 d).entities.enemies = e.entities.enemies := by
  rw [engineUpdate]
  split_ifs <;>
    simp_all [entitiesUpdate_zero e.entities d htrial, JsValue.getField, JsValue.truthy]

/-- Witness for C9: a concrete running configuration with one enemy is left
unchanged by a `dt = 0` update. -/
theorem c9_dt_zero_noop_witness :
    (engineUpdate ⟨.running, 3, 5, true, ⟨[⟨⟨0, 83⟩, ⟨100, 0⟩⟩], ⟨202, 415⟩⟩⟩ 0 ⟨1/2, 0, 0⟩).state
        = (⟨.running, 3, 5, true, ⟨[⟨⟨0, 83⟩, ⟨100, 0⟩⟩], ⟨202, 415⟩⟩⟩ : EngineState).state ∧
    (engineUpdate ⟨.running, 3, 5, true, ⟨[⟨⟨0, 83⟩, ⟨100, 0⟩⟩], ⟨202, 415⟩⟩⟩ 0 ⟨1/2, 0, 0⟩).score
        = (⟨.running, 3, 5, true, ⟨[⟨⟨0, 83⟩, ⟨100, 0⟩⟩], ⟨202, 415⟩⟩⟩ : EngineState).score ∧
    (engineUpdate ⟨.running, 3, 5, true, ⟨[⟨⟨0, 83⟩, ⟨100, 0⟩⟩], ⟨202, 415⟩⟩⟩ 0
        ⟨1/2, 0, 0⟩).entities.player
        = (⟨.running, 3, 5, true, ⟨[⟨⟨0, 83⟩, ⟨100, 0⟩⟩], ⟨202, 415⟩⟩⟩ : EngineState).entities.player ∧
    (engineUpdate ⟨.running, 3, 5, true, ⟨[⟨⟨0, 83⟩, ⟨100, 0⟩⟩], ⟨202, 415⟩⟩⟩ 0
        ⟨1/2, 0, 0⟩).entities.enemies
        = (⟨.running, 3, 5, true, ⟨[⟨⟨0, 83⟩, ⟨100, 0⟩⟩], ⟨202, 415⟩⟩⟩ : EngineState).entities.enemies :=
  c9_dt_zero_noop _ _ (by norm_num)

/-- C10: `Entities.update` returns a single boolean — the negation of the
collision test on the post-frame enemy positions (the player is untouched by
the entity cycle) — not a record with named fields. -/
theorem c10_returns_not_collision (s : EntitiesState) (dt : ℚ) (d : Draws) :
    (entitiesUpdate s dt d).2
      = !(checkCollisions (entitiesUpdate s dt d).1.player (entitiesUpdate s dt d).1.enemies) ∧
    (entitiesUpdate s dt d).1.player = s.player :=
  ⟨rfl, rfl⟩

end Arcade
